import Mathlib

/-!
# QueryGuard: the SQL safety validators of the repository

Shallow embedding of the query-validation logic of the repository's three
dashboards, and of the spec's idealized `QueryGuard.validate` contract.

The code embedded (character-for-character faithful on ASCII input):

* `ThreadSafeDatabase.execute_query` (Capstone 1 updated 06.02.2026/database.py,
  lines 229-263): lowers and strips the query, raises `PermissionError` when any
  of six dangerous words occurs as a *substring*, raises `PermissionError` when
  the lowered text does not *start with* `select`, and otherwise executes the
  query inside `with self.get_cursor()`, returning execution errors as a tagged
  `{"success": False, "error": ...}` value.
* `execute_safe_query` (Capstone 1 updated 06.02.2026/app.py, lines 296-317):
  the same two checks, but both failures are *returned* as tagged error dicts
  instead of raised.
* `execute_safe_query` (Capstone 1 data_app/app.py, lines 161-180): uppercases
  the raw query and blocks on five dangerous substrings; it has no leading
  keyword check at all.

Python strings are modelled as `List Char` (ASCII-faithful: `str.strip`,
`str.lower`, `str.upper`, `str.startswith`, and `in` are mirrored below).
-/

namespace QueryGuard

/-- Python whitespace for `str.strip()`: space, tab, newline, carriage
return, vertical tab, form feed. -/
def pySpace (c : Char) : Bool :=
  c == ' ' || c == '\t' || c == '\n' || c == '\r' || c == '\x0b' || c == '\x0c'

/-- Python `s.strip()`: drop leading and trailing whitespace. -/
def pyStrip (s : List Char) : List Char :=
  ((s.dropWhile pySpace).reverse.dropWhile pySpace).reverse

/-- Python `s.lower()` (ASCII). -/
def pyLower (s : List Char) : List Char := s.map Char.toLower

/-- Python `s.upper()` (ASCII). -/
def pyUpper (s : List Char) : List Char := s.map Char.toUpper

/-- Python substring containment `needle in hay`. -/
def substrB (needle : List Char) : List Char → Bool
  | [] => needle.isEmpty
  | c :: t => needle.isPrefixOf (c :: t) || substrB needle t

/-- `query.strip().lower()`, the inspection copy both Capstone-1 validators
build (`query_lower` in the source). -/
def normalized (query : String) : List Char := pyLower (pyStrip query.toList)

/-- `any(op in query_lower for op in ops)`. -/
def hasDangerous (ops : List String) (query_lower : List Char) : Bool :=
  ops.any (fun op => substrB op.toList query_lower)

/-- The `'select'` literal of `query_lower.startswith('select')`. -/
def selectKeyword : List Char := "select".toList

/-- Outcome of one validator call, as seen by the caller:
a raised `PermissionError`, a returned tagged error value
(`{"success": False, "error": msg}` or `(None, error_msg)`), or the query
being handed on to the SQL execution layer. -/
inductive Outcome where
  | raised (msg : String)
  | errorValue (msg : String)
  | execute (q : String)
deriving DecidableEq

/-- `true` exactly when the outcome is a raised exception. -/
def Outcome.raisesB : Outcome → Bool
  | .raised _ => true
  | _ => false

/-- `dangerous_operations` of `ThreadSafeDatabase.execute_query`, and the
identical `dangerous` list of the updated app's `execute_safe_query`. -/
def dangerous_operations : List String :=
  ["drop", "delete", "truncate", "alter", "update", "insert"]

def dbForbiddenMsg : String := "This operation is not allowed for safety reasons."

def dbSelectMsg : String := "Only SELECT queries are allowed for data safety."

/-- Validation phase of `ThreadSafeDatabase.execute_query`
(Capstone 1 updated 06.02.2026/database.py, lines 229-240): substring blocklist
check, then `startswith('select')` check, both raising `PermissionError`; on
success the original `query` string is passed unchanged to the cursor. -/
def ThreadSafeDatabase.execute_query_check (query : String) : Outcome :=
  let query_lower := normalized query
  if hasDangerous dangerous_operations query_lower then
    .raised dbForbiddenMsg
  else if !(selectKeyword.isPrefixOf query_lower) then
    .raised dbSelectMsg
  else
    .execute query

/-- `ThreadSafeDatabase.execute_query` with the database abstracted as a state
`σ` and the whole `with self.get_cursor(): ...` block (cursor acquisition,
statement execution, commit) abstracted as `run`.  In the source the two
safety checks raise before `get_cursor` is entered; a raised `PermissionError`
is surfaced as `Except.error` and leaves the state untouched. -/
def ThreadSafeDatabase.execute_query {σ ρ : Type} (run : String → σ → ρ × σ)
    (query : String) (db : σ) : Except String ρ × σ :=
  match ThreadSafeDatabase.execute_query_check query with
  | .raised msg => (Except.error msg, db)
  | .errorValue msg => (Except.error msg, db)
  | .execute q =>
    let (r, db') := run q db
    (Except.ok r, db')

def appForbiddenMsg : String := "This operation is blocked for safety."

def appSelectMsg : String := "Only SELECT queries are allowed."

/-- Validation phase of `execute_safe_query`
(Capstone 1 updated 06.02.2026/app.py, lines 296-306): the same two checks as
`ThreadSafeDatabase.execute_query`, but both rejections are returned as tagged
`{"success": False, "error": ...}` values; on success the query is handed to
`pd.read_sql_query` inside a `try`/`except` whose failure is also returned as
a tagged error value. -/
def execute_safe_query (query : String) : Outcome :=
  let query_lower := normalized query
  if hasDangerous dangerous_operations query_lower then
    .errorValue appForbiddenMsg
  else if !(selectKeyword.isPrefixOf query_lower) then
    .errorValue appSelectMsg
  else
    .execute query

namespace DataApp

/-- The five-keyword blocklist of `execute_safe_query`
(Capstone 1 data_app/app.py, line 163). -/
def forbiddenKeywords : List String :=
  ["DELETE", "DROP", "INSERT", "UPDATE", "ALTER"]

def safetyMsg : String := "❌ Safety Violation: Only SELECT queries are allowed!"

/-- Validation phase of `execute_safe_query` (Capstone 1 data_app/app.py,
lines 161-180): one substring check against `query.upper()` (no strip, no
leading-keyword check); rejection is returned as the tagged pair
`(None, error_msg)`, success hands the raw query to `pd.read_sql_query`
inside a `try`/`except` whose failure is likewise returned tagged. -/
def execute_safe_query (query : String) : Outcome :=
  if hasDangerous forbiddenKeywords (pyUpper query.toList) then
    .errorValue safetyMsg
  else
    .execute query

end DataApp

/-! ## The spec's vocabulary

The spec (§4.1, §6, §7) describes `validate` through a rejection-reason
taxonomy and a whitespace/punctuation tokenizer.  The definitions below state
that vocabulary so the claims can be expressed; they are *spec-side*
definitions, to be compared against the code embeddings above. -/

/-- The spec's rejection-reason taxonomy (§7). -/
inductive Reason where
  | empty
  | forbidden_keyword
  | not_read_only
  | multi_statement
deriving DecidableEq

/-- Classify a validator outcome by the spec's taxonomy, matching on the
code's (fixed, literal) rejection messages: the blocklist branch is the
spec's `forbidden_keyword`, the `startswith('select')` branch is
`not_read_only`, and acceptance has no reason.  No branch of any embedded
validator produces `empty` or `multi_statement`. -/
def reasonOf (o : Outcome) : Option Reason :=
  match o with
  | .raised m | .errorValue m =>
    if m = dbForbiddenMsg ∨ m = appForbiddenMsg ∨ m = DataApp.safetyMsg then
      some .forbidden_keyword
    else if m = dbSelectMsg ∨ m = appSelectMsg then
      some .not_read_only
    else
      none
  | .execute _ => none

/-- A SQL word character for the spec's tokenizer: identifiers are made of
alphanumerics and underscores; everything else (whitespace and punctuation)
delimits tokens. -/
def isWordChar (c : Char) : Bool := c.isAlphanum || c == '_'

/-- Tokenizer worker: `acc` holds the current in-progress token, reversed. -/
def tokensAux : List Char → List Char → List (List Char)
  | [], acc => if acc.isEmpty then [] else [acc.reverse]
  | c :: t, acc =>
    if isWordChar c then
      tokensAux t (c :: acc)
    else if acc.isEmpty then
      tokensAux t []
    else
      acc.reverse :: tokensAux t []

/-- The spec's tokenization (§4.1 step 3): split into
whitespace/punctuation-delimited words. -/
def tokens (s : List Char) : List (List Char) := tokensAux s []

/-- First token of a query, for the spec's leading-keyword check. -/
def firstToken (s : List Char) : Option (List Char) := (tokens s).head?

/-- The spec's default forbidden-keyword set (§6). -/
def specForbidden : List String :=
  ["drop", "delete", "truncate", "alter", "update", "insert",
   "replace", "create", "attach", "pragma"]

/-- `true` when some token of `s` is exactly a word of `ws` — the spec's
exact-token forbidden-keyword test. -/
def hasForbiddenToken (ws : List String) (s : List Char) : Bool :=
  (tokens s).any (fun t => (ws.map String.toList).contains t)

/-- The spec's multi-statement test (§4.1 step 5): a `;` followed by further
non-whitespace content. -/
def multiStatementB : List Char → Bool
  | [] => false
  | c :: t => (c == ';' && t.any (fun d => !(pySpace d))) || multiStatementB t

end QueryGuard

section Sanity

open QueryGuard

example : ThreadSafeDatabase.execute_query_check "SELECT * FROM sales" =
    .execute "SELECT * FROM sales" := by decide

example : ThreadSafeDatabase.execute_query_check "DROP TABLE sales" =
    .raised dbForbiddenMsg := by decide

example : ThreadSafeDatabase.execute_query_check "SELECT updated_at FROM sales" =
    .raised dbForbiddenMsg := by decide

example : execute_safe_query "sales report please" = .errorValue appSelectMsg := by decide

example : DataApp.execute_safe_query "PRAGMA table_info(sales)" =
    .execute "PRAGMA table_info(sales)" := by decide

example : tokens (normalized "SELECT updated_at FROM sales") =
    ["select".toList, "updated_at".toList, "from".toList, "sales".toList] := by decide

example : multiStatementB ("SELECT 1; SELECT 2").toList = true := by decide

example : multiStatementB ("SELECT 1;   ").toList = false := by decide

end Sanity

namespace QueryGuard

/-! ## Helper lemmas -/

/-- Every token produced by the tokenizer worker is a contiguous infix of the
accumulator (reversed) followed by the remaining input. -/
theorem tokensAux_mem_contig (s : List Char) :
    ∀ acc t, t ∈ tokensAux s acc → t <:+: (acc.reverse ++ s) := by
  induction s with
  | nil =>
    intro acc t ht
    unfold tokensAux at ht
    split at ht
    · simp at ht
    · simp only [List.mem_singleton] at ht
      subst ht
      simp
  | cons c rest ih =>
    intro acc t ht
    unfold tokensAux at ht
    split at ht
    · have h := ih (c :: acc) t ht
      have he : (c :: acc).reverse ++ rest = acc.reverse ++ c :: rest := by simp
      exact he ▸ h
    · split at ht
      · next _ hacc =>
        have hae : acc = [] := List.isEmpty_iff.mp hacc
        subst hae
        have h := ih [] t ht
        simp only [List.reverse_nil, List.nil_append] at h ⊢
        exact List.infix_cons h
      · rcases List.mem_cons.mp ht with rfl | hmem
        · exact (List.prefix_append _ _).isInfix
        · have h := ih [] t hmem
          simp only [List.reverse_nil, List.nil_append] at h
          rcases h with ⟨u, v, huv⟩
          exact ⟨acc.reverse ++ c :: u, v, by simp [← huv]⟩

/-- Every token of `tokens s` is a contiguous infix of `s`. -/
theorem tokens_mem_contig {s t : List Char} (ht : t ∈ tokens s) : t <:+: s := by
  simpa using tokensAux_mem_contig s [] t ht

/-- `substrB` (Python's `in`) is complete for the infix relation. -/
theorem substrB_complete {n h : List Char} (hi : n <:+: h) : substrB n h = true := by
  induction h with
  | nil =>
    rw [List.infix_nil] at hi
    subst hi
    rfl
  | cons c t ih =>
    rcases List.infix_cons_iff.mp hi with hp | hi'
    · unfold substrB
      rw [List.isPrefixOf_iff_prefix.mpr hp, Bool.true_or]
    · unfold substrB
      rw [ih hi', Bool.or_true]

/-- Characterization of acceptance by `ThreadSafeDatabase.execute_query_check`:
both checks pass and the payload is the original query. -/
theorem db_check_execute_iff (q p : String) :
    ThreadSafeDatabase.execute_query_check q = .execute p ↔
      hasDangerous dangerous_operations (normalized q) = false
      ∧ selectKeyword.isPrefixOf (normalized q) = true ∧ q = p := by
  by_cases hd : hasDangerous dangerous_operations (normalized q) = true
  · simp [ThreadSafeDatabase.execute_query_check, hd]
  · by_cases hs : selectKeyword.isPrefixOf (normalized q) = true
    · simp only [Bool.not_eq_true] at hd
      simp [ThreadSafeDatabase.execute_query_check, hd, hs]
    · simp only [Bool.not_eq_true] at hd hs
      simp [ThreadSafeDatabase.execute_query_check, hd, hs]

/-- Characterization of acceptance by the updated app's `execute_safe_query`. -/
theorem app_check_execute_iff (q p : String) :
    execute_safe_query q = .execute p ↔
      hasDangerous dangerous_operations (normalized q) = false
      ∧ selectKeyword.isPrefixOf (normalized q) = true ∧ q = p := by
  by_cases hd : hasDangerous dangerous_operations (normalized q) = true
  · simp [execute_safe_query, hd]
  · by_cases hs : selectKeyword.isPrefixOf (normalized q) = true
    · simp only [Bool.not_eq_true] at hd
      simp [execute_safe_query, hd, hs]
    · simp only [Bool.not_eq_true] at hd hs
      simp [execute_safe_query, hd, hs]

end QueryGuard

namespace QueryGuard

/-- Exhaustive branch analysis of the updated app's `execute_safe_query`. -/
theorem app_check_cases (q : String) :
    execute_safe_query q = .errorValue appForbiddenMsg
    ∨ execute_safe_query q = .errorValue appSelectMsg
    ∨ execute_safe_query q = .execute q := by
  by_cases hd : hasDangerous dangerous_operations (normalized q) = true
  · exact Or.inl (by simp only [execute_safe_query, hd]; rfl)
  · rw [Bool.not_eq_true] at hd
    by_cases hs : selectKeyword.isPrefixOf (normalized q) = true
    · exact Or.inr (Or.inr ((app_check_execute_iff q q).mpr ⟨hd, hs, rfl⟩))
    · rw [Bool.not_eq_true] at hs
      exact Or.inr (Or.inl (by simp only [execute_safe_query, hd, hs]; rfl))

/-- Exhaustive branch analysis of the data_app `execute_safe_query`. -/
theorem dataApp_check_cases (q : String) :
    DataApp.execute_safe_query q = .errorValue DataApp.safetyMsg
    ∨ DataApp.execute_safe_query q = .execute q := by
  by_cases hd : hasDangerous DataApp.forbiddenKeywords (pyUpper q.toList) = true
  · exact Or.inl (by simp only [DataApp.execute_safe_query, hd]; rfl)
  · rw [Bool.not_eq_true] at hd
    exact Or.inr (by simp only [DataApp.execute_safe_query, hd]; rfl)

/-! ## Claims -/

/-- C1: the claim says a query whose first token is `select`, with no
forbidden keyword as an *exact token* and no `;` followed by content, is
`Allowed` unchanged — in particular `SELECT updated_at FROM sales`.  The code
instead matches forbidden words as *substrings* of the lowered query, so the
`update` inside the identifier `updated_at` makes both Capstone-1 validators
reject this query even though it satisfies every hypothesis of the claim. -/
theorem claim1_substring_match_rejects_updated_at :
    (firstToken (normalized "SELECT updated_at FROM sales") = some selectKeyword
      ∧ hasForbiddenToken specForbidden (normalized "SELECT updated_at FROM sales") = false
      ∧ multiStatementB ("SELECT updated_at FROM sales").toList = false)
    ∧ ThreadSafeDatabase.execute_query_check "SELECT updated_at FROM sales" =
        .raised dbForbiddenMsg
    ∧ execute_safe_query "SELECT updated_at FROM sales" = .errorValue appForbiddenMsg := by
  decide

/-- C2 counterexample: the claim says the validator never raises, yet
`ThreadSafeDatabase.execute_query` raises `PermissionError` on a forbidden
keyword (`raised` is the propagated-exception outcome). -/
theorem claim2_counterexample_db_validator_raises :
    (ThreadSafeDatabase.execute_query_check "DROP TABLE sales").raisesB = true
    ∧ ThreadSafeDatabase.execute_query_check "DROP TABLE sales" = .raised dbForbiddenMsg
    ∧ (ThreadSafeDatabase.execute_query_check "sales report please").raisesB = true := by
  decide

/-- C2 (amended): the two app-level `execute_safe_query` validators never
raise — all their failure paths are returned as tagged error values — while
`ThreadSafeDatabase.execute_query` raises `PermissionError` on its two
validation failures. -/
theorem claim2_app_validators_never_raise :
    (∀ q : String, (execute_safe_query q).raisesB = false)
    ∧ (∀ q : String, (DataApp.execute_safe_query q).raisesB = false)
    ∧ (ThreadSafeDatabase.execute_query_check "DROP TABLE sales").raisesB = true := by
  refine ⟨fun q => ?_, fun q => ?_, by decide⟩
  · rcases app_check_cases q with h | h | h <;> rw [h] <;> rfl
  · rcases dataApp_check_cases q with h | h <;> rw [h] <;> rfl

/-- C3 counterexample: the claim says empty and whitespace-only queries are
rejected with reason `empty`, firing before any other check.  The code has no
empty check at all: both inputs fall through to the `startswith('select')`
check and come back as `not_read_only`. -/
theorem claim3_counterexample_no_empty_reason :
    reasonOf (ThreadSafeDatabase.execute_query_check "") = some .not_read_only
    ∧ reasonOf (ThreadSafeDatabase.execute_query_check "") ≠ some Reason.empty
    ∧ reasonOf (ThreadSafeDatabase.execute_query_check "   ") ≠ some Reason.empty
    ∧ reasonOf (execute_safe_query "") ≠ some Reason.empty := by
  decide

/-- C3 (amended): every query that is empty after stripping is rejected, but
by the read-only prefix check (`Only SELECT queries are allowed...`), i.e.
with the `not_read_only` reason — the code has no dedicated `empty` reason. -/
theorem claim3_blank_rejected_as_not_read_only (q : String)
    (h : pyStrip q.toList = []) :
    ThreadSafeDatabase.execute_query_check q = .raised dbSelectMsg
    ∧ execute_safe_query q = .errorValue appSelectMsg
    ∧ reasonOf (ThreadSafeDatabase.execute_query_check q) = some .not_read_only := by
  have hn : normalized q = [] := by
    simp only [normalized, h, pyLower, List.map_nil]
  refine ⟨?_, ?_, ?_⟩ <;>
    simp only [ThreadSafeDatabase.execute_query_check, execute_safe_query, hn] <;> rfl

/-- C3 witness: the whitespace-only query of the claim. -/
theorem claim3_blank_rejected_witness :
    ThreadSafeDatabase.execute_query_check "   " = .raised dbSelectMsg
    ∧ execute_safe_query "   " = .errorValue appSelectMsg
    ∧ reasonOf (ThreadSafeDatabase.execute_query_check "   ") = some .not_read_only :=
  claim3_blank_rejected_as_not_read_only "   " (by decide)

/-- C4 counterexample: `SELECT 1; SELECT 2` contains `;` followed by further
non-whitespace content and no forbidden keyword, yet both Capstone-1
validators accept it — there is no multi-statement check in the code. -/
theorem claim4_counterexample_multi_statement_accepted :
    multiStatementB ("SELECT 1; SELECT 2").toList = true
    ∧ hasForbiddenToken specForbidden (normalized "SELECT 1; SELECT 2") = false
    ∧ ThreadSafeDatabase.execute_query_check "SELECT 1; SELECT 2" =
        .execute "SELECT 1; SELECT 2"
    ∧ execute_safe_query "SELECT 1; SELECT 2" = .execute "SELECT 1; SELECT 2" := by
  decide

/-- C4 (amended): the validators perform no multi-statement check: any query
passing the substring blocklist whose stripped lowered text starts with
`select` is handed to the execution layer unchanged, even when a `;` is
followed by further non-whitespace content. -/
theorem claim4_no_multi_statement_check (q : String)
    (hm : multiStatementB q.toList = true)
    (hd : hasDangerous dangerous_operations (normalized q) = false)
    (hs : selectKeyword.isPrefixOf (normalized q) = true) :
    ThreadSafeDatabase.execute_query_check q = .execute q
    ∧ execute_safe_query q = .execute q := by
  exact ⟨(db_check_execute_iff q q).mpr ⟨hd, hs, rfl⟩,
         (app_check_execute_iff q q).mpr ⟨hd, hs, rfl⟩⟩

/-- C4 witness: the two-statement query of the claim. -/
theorem claim4_no_multi_statement_check_witness :
    ThreadSafeDatabase.execute_query_check "SELECT 1; SELECT 2" =
        .execute "SELECT 1; SELECT 2"
    ∧ execute_safe_query "SELECT 1; SELECT 2" = .execute "SELECT 1; SELECT 2" :=
  claim4_no_multi_statement_check "SELECT 1; SELECT 2" (by decide) (by decide) (by decide)

/-- C5 counterexample: the claim's forbidden set includes `pragma`, but the
code's blocklist stops at six words: `SELECT pragma FROM t` contains the
forbidden keyword `pragma` as an exact token and is accepted anyway; moreover
the rejection message for `DROP TABLE sales` is generic — it does not name
the offending token (`drop` does not occur in it). -/
theorem claim5_counterexample_short_blocklist :
    hasForbiddenToken specForbidden (normalized "SELECT pragma FROM t") = true
    ∧ ThreadSafeDatabase.execute_query_check "SELECT pragma FROM t" =
        .execute "SELECT pragma FROM t"
    ∧ ThreadSafeDatabase.execute_query_check "DROP TABLE sales" = .raised dbForbiddenMsg
    ∧ substrB "drop".toList (pyLower dbForbiddenMsg.toList) = false := by
  decide

/-- C5 (amended): the blocklist is the six words `drop, delete, truncate,
alter, update, insert`, matched case-insensitively as substrings; any query
containing one is rejected on the `forbidden_keyword` branch with a fixed
generic message that names no token. -/
theorem claim5_six_word_substring_blocklist (q : String)
    (hd : hasDangerous dangerous_operations (normalized q) = true) :
    ThreadSafeDatabase.execute_query_check q = .raised dbForbiddenMsg
    ∧ execute_safe_query q = .errorValue appForbiddenMsg
    ∧ reasonOf (ThreadSafeDatabase.execute_query_check q) = some .forbidden_keyword := by
  refine ⟨?_, ?_, ?_⟩ <;>
    simp only [ThreadSafeDatabase.execute_query_check, execute_safe_query, hd] <;> rfl

/-- C5 witness: the claim's own example `DROP TABLE sales`. -/
theorem claim5_six_word_substring_blocklist_witness :
    ThreadSafeDatabase.execute_query_check "DROP TABLE sales" = .raised dbForbiddenMsg
    ∧ execute_safe_query "DROP TABLE sales" = .errorValue appForbiddenMsg
    ∧ reasonOf (ThreadSafeDatabase.execute_query_check "DROP TABLE sales") =
        some .forbidden_keyword :=
  claim5_six_word_substring_blocklist "DROP TABLE sales" (by decide)

/-- C6 counterexample: the claim says any query whose *first token* is not
`select` is rejected.  The code checks `startswith('select')` on the lowered
text instead, so `selecting stuff from x` — first token `selecting`, no
forbidden keyword — is accepted. -/
theorem claim6_counterexample_prefix_not_token :
    firstToken (normalized "selecting stuff from x") ≠ some selectKeyword
    ∧ hasForbiddenToken specForbidden (normalized "selecting stuff from x") = false
    ∧ ThreadSafeDatabase.execute_query_check "selecting stuff from x" =
        .execute "selecting stuff from x" := by
  decide

/-- C6 (amended): any query passing the blocklist whose stripped lowered text
does not *start with* the string `select` is rejected on the read-only branch
(`not_read_only`); the check is a string-prefix test, not a first-token test. -/
theorem claim6_not_select_prefix_rejected (q : String)
    (hd : hasDangerous dangerous_operations (normalized q) = false)
    (hs : selectKeyword.isPrefixOf (normalized q) = false) :
    ThreadSafeDatabase.execute_query_check q = .raised dbSelectMsg
    ∧ execute_safe_query q = .errorValue appSelectMsg
    ∧ reasonOf (ThreadSafeDatabase.execute_query_check q) = some .not_read_only := by
  refine ⟨?_, ?_, ?_⟩ <;>
    simp only [ThreadSafeDatabase.execute_query_check, execute_safe_query, hd, hs] <;> rfl

/-- C6 witness: the claim's own example `sales report please`. -/
theorem claim6_not_select_prefix_rejected_witness :
    ThreadSafeDatabase.execute_query_check "sales report please" = .raised dbSelectMsg
    ∧ execute_safe_query "sales report please" = .errorValue appSelectMsg
    ∧ reasonOf (ThreadSafeDatabase.execute_query_check "sales report please") =
        some .not_read_only :=
  claim6_not_select_prefix_rejected "sales report please" (by decide) (by decide)

/-- C7: on a query that contains one of the validator's forbidden keywords as
a token and is multi-statement, the blocklist check fires first: the result is
the `forbidden_keyword` rejection, never a multi-statement one (a token
occurrence is in particular a substring occurrence, and the blocklist check is
the first check in the code). -/
theorem claim7_forbidden_keyword_precedes_multi_statement (q : String)
    (ht : hasForbiddenToken dangerous_operations (normalized q) = true)
    (hm : multiStatementB q.toList = true) :
    reasonOf (ThreadSafeDatabase.execute_query_check q) = some .forbidden_keyword
    ∧ reasonOf (ThreadSafeDatabase.execute_query_check q) ≠ some Reason.multi_statement
    ∧ reasonOf (execute_safe_query q) = some .forbidden_keyword := by
  have hd : hasDangerous dangerous_operations (normalized q) = true := by
    unfold hasForbiddenToken at ht
    rcases List.any_eq_true.mp ht with ⟨t, htok, hcont⟩
    have hmem : t ∈ dangerous_operations.map String.toList := by
      rw [List.contains_eq_any_beq] at hcont
      rcases List.any_eq_true.mp hcont with ⟨u, hu, hbeq⟩
      rw [beq_iff_eq.mp hbeq]
      exact hu
    rcases List.mem_map.mp hmem with ⟨op, hop, rfl⟩
    unfold hasDangerous
    exact List.any_eq_true.mpr ⟨op, hop, substrB_complete (tokens_mem_contig htok)⟩
  have hr1 : ThreadSafeDatabase.execute_query_check q = .raised dbForbiddenMsg := by
    simp only [ThreadSafeDatabase.execute_query_check, hd]
    rfl
  have hr2 : execute_safe_query q = .errorValue appForbiddenMsg := by
    simp only [execute_safe_query, hd]
    rfl
  refine ⟨?_, ?_, ?_⟩
  · rw [hr1]
    decide
  · rw [hr1]
    decide
  · rw [hr2]
    decide

/-- C7 witness: the claim's own example `SELECT 1; DROP TABLE sales`. -/
theorem claim7_forbidden_keyword_precedes_multi_statement_witness :
    reasonOf (ThreadSafeDatabase.execute_query_check "SELECT 1; DROP TABLE sales") =
        some .forbidden_keyword
    ∧ reasonOf (ThreadSafeDatabase.execute_query_check "SELECT 1; DROP TABLE sales") ≠
        some Reason.multi_statement
    ∧ reasonOf (execute_safe_query "SELECT 1; DROP TABLE sales") = some .forbidden_keyword :=
  claim7_forbidden_keyword_precedes_multi_statement "SELECT 1; DROP TABLE sales"
    (by decide) (by decide)

/-- C8: the validators are pure functions of the query (the embedding takes no
other input), the accepted payload is the original query unchanged, and
re-validating an accepted payload accepts it again with the same payload. -/
theorem claim8_validation_deterministic_idempotent (q p : String) :
    (ThreadSafeDatabase.execute_query_check q = .execute p →
      p = q ∧ ThreadSafeDatabase.execute_query_check p = .execute p)
    ∧ (execute_safe_query q = .execute p →
      p = q ∧ execute_safe_query p = .execute p) := by
  constructor
  · intro h
    obtain ⟨hd, hs, hqp⟩ := (db_check_execute_iff q p).mp h
    subst hqp
    exact ⟨rfl, (db_check_execute_iff q q).mpr ⟨hd, hs, rfl⟩⟩
  · intro h
    obtain ⟨hd, hs, hqp⟩ := (app_check_execute_iff q p).mp h
    subst hqp
    exact ⟨rfl, (app_check_execute_iff q q).mpr ⟨hd, hs, rfl⟩⟩

/-- C8 witness: re-validating the accepted `SELECT * FROM sales` payload. -/
theorem claim8_validation_deterministic_idempotent_witness :
    "SELECT * FROM sales" = "SELECT * FROM sales"
    ∧ ThreadSafeDatabase.execute_query_check "SELECT * FROM sales" =
        .execute "SELECT * FROM sales" :=
  (claim8_validation_deterministic_idempotent "SELECT * FROM sales" "SELECT * FROM sales").1
    (by decide)

/-- C9: the data_app validator has no leading-keyword check: every query whose
uppercased text avoids the five substrings `DELETE, DROP, INSERT, UPDATE,
ALTER` is handed to execution unchanged, whatever its first token; in
particular a `PRAGMA`, a `TRUNCATE`, a `CREATE`, an `ATTACH` and a `REPLACE`
statement all pass its filter, showing the blocklist omits those keywords. -/
theorem claim9_data_app_filter_is_five_substrings :
    (∀ q : String, hasDangerous DataApp.forbiddenKeywords (pyUpper q.toList) = false →
      DataApp.execute_safe_query q = .execute q)
    ∧ DataApp.execute_safe_query "PRAGMA table_info(sales)" =
        .execute "PRAGMA table_info(sales)"
    ∧ DataApp.execute_safe_query "TRUNCATE TABLE sales" = .execute "TRUNCATE TABLE sales"
    ∧ DataApp.execute_safe_query "CREATE TABLE t(x)" = .execute "CREATE TABLE t(x)"
    ∧ DataApp.execute_safe_query "ATTACH DATABASE f AS a" =
        .execute "ATTACH DATABASE f AS a"
    ∧ DataApp.execute_safe_query "REPLACE INTO t VALUES(1)" =
        .execute "REPLACE INTO t VALUES(1)" := by
  refine ⟨fun q h => ?_, by decide, by decide, by decide, by decide, by decide⟩
  simp only [DataApp.execute_safe_query, h]
  rfl

/-- C9 witness: a non-SELECT request string passes the data_app filter. -/
theorem claim9_data_app_filter_witness :
    DataApp.execute_safe_query "sales report please" = .execute "sales report please" :=
  claim9_data_app_filter_is_five_substrings.1 "sales report please" (by decide)

/-- C10: when `ThreadSafeDatabase.execute_query` rejects a query, the
`PermissionError` is raised before `get_cursor` is entered: the result is the
propagated error and the database state is returned untouched, for every
executor `run` and every starting state. -/
theorem claim10_rejection_leaves_state_unchanged {σ ρ : Type}
    (run : String → σ → ρ × σ) (q : String) (db : σ) (msg : String)
    (h : ThreadSafeDatabase.execute_query_check q = .raised msg) :
    ThreadSafeDatabase.execute_query run q db = (Except.error msg, db) := by
  unfold ThreadSafeDatabase.execute_query
  rw [h]

/-- C10 witness: a counting executor is never invoked on `DROP TABLE sales`. -/
theorem claim10_rejection_leaves_state_unchanged_witness :
    ThreadSafeDatabase.execute_query (fun s (n : Nat) => (s.length, n + 1))
      "DROP TABLE sales" 0 = (Except.error dbForbiddenMsg, 0) :=
  claim10_rejection_leaves_state_unchanged (fun s (n : Nat) => (s.length, n + 1))
    "DROP TABLE sales" 0 dbForbiddenMsg (by decide)

end QueryGuard
